import Mathlib

/-!
Verification of the financial chatbot HTTP API (`main.py`).

The five Flask handlers (`start_chat`, `send_message`, `end_chat`,
`get_user_chats`, `get_chat_messages`) are embedded as pure functions over an
explicit database state.  Timestamps (`datetime.now()`) and freshly generated
UUIDs enter each handler as parameters; the external Groq completion call is
an `Option String` parameter (`some reply` for a successful call, `none` for
an exception caught by the `try/except` block).  SQL `ORDER BY` is modelled
with the stable `List.insertionSort`; a `NULL` bind parameter (a JSON body
without `user_id`) compares unequal to every row, as in SQL.
-/

namespace FinChat

/-- Row of the `chats` table. -/
structure Chat where
  chat_id : Nat
  user_id : Nat
  title : String
  created_at : Nat
  updated_at : Nat
  is_active : Bool
deriving DecidableEq

/-- Row of the `chat_messages` table. -/
structure ChatMessage where
  message_id : Nat
  chat_id : Nat
  content : String
  is_user_message : Bool
  created_at : Nat
deriving DecidableEq

/-- The relational state: the external `users` table (only its ids are read)
and the two tables created by `setup_chat_schema`. -/
structure DB where
  users : List Nat
  chats : List Chat
  chat_messages : List ChatMessage
deriving DecidableEq

/-- One row of the `get_user_chats` SELECT (no `user_id` column is selected). -/
structure ChatSummary where
  chat_id : Nat
  title : String
  created_at : Nat
  updated_at : Nat
  is_active : Bool
  last_message : Option String
deriving DecidableEq

/-- The JSON responses of the five handlers, together with their HTTP status. -/
inductive ApiResult where
  | startOk (chat_id : Nat) (message : String)
  | sendOk (message_id : Nat) (content : String)
  | endOk (message : String)
  | listOk (chats : List ChatSummary)
  | historyOk (chat_id : Nat) (title : String) (is_active : Bool)
      (messages : List ChatMessage)
  | badRequest (error : String)
  | notFound (error : String)
deriving DecidableEq

/-- HTTP status code of a response. -/
def ApiResult.status : ApiResult → Nat
  | .badRequest _ => 400
  | .notFound _ => 404
  | _ => 200

/-- Python truthiness of an optional JSON integer: absent/null and 0 are falsy. -/
def truthyId : Option Nat → Bool
  | none => false
  | some u => u != 0

/-- Python truthiness of an optional JSON string: absent/null and empty are falsy. -/
def truthyMsg : Option String → Bool
  | none => false
  | some s => s != ""

/-- SQL comparison `user_id = %s` with a parameter bound from `data.get`:
a missing parameter is bound as `NULL` and compares unequal to every row. -/
def uidMatches (uid : Option Nat) (c : Chat) : Bool :=
  match uid with
  | none => false
  | some u => c.user_id == u

/-- The greeting inserted by `start_chat` (`system_message` in the source). -/
def systemMessage : String :=
  "Hello! I\x27m your financial assistant. How can I help you with your finances today?"

/-- The fixed fallback reply assigned in the `except` branch of `send_message`. -/
def fallbackMessage : String :=
  "I\x27m sorry, I\x27m having trouble processing your request right now. Please try again later."

/-- The `assistant_response` produced by the `try/except` around the Groq
call: the reply on success, the fixed fallback on any exception. -/
def groqReply : Option String → String
  | some reply => reply
  | none => fallbackMessage

/-- Ascending `ORDER BY created_at`. -/
def createdLe (a b : ChatMessage) : Prop := a.created_at ≤ b.created_at

/-- Descending `ORDER BY created_at DESC`. -/
def createdGe (a b : ChatMessage) : Prop := b.created_at ≤ a.created_at

/-- Descending `ORDER BY updated_at DESC`. -/
def updatedGe (a b : Chat) : Prop := b.updated_at ≤ a.updated_at

instance : DecidableRel createdLe := fun _ _ => Nat.decLe _ _

instance : DecidableRel createdGe := fun _ _ => Nat.decLe _ _

instance : DecidableRel updatedGe := fun _ _ => Nat.decLe _ _

instance : IsTotal ChatMessage createdLe :=
  ⟨fun a b => Nat.le_total a.created_at b.created_at⟩

instance : IsTrans ChatMessage createdLe :=
  ⟨fun _ _ _ h1 h2 => Nat.le_trans h1 h2⟩

instance : IsTotal ChatMessage createdGe :=
  ⟨fun a b => (Nat.le_total a.created_at b.created_at).symm⟩

instance : IsTrans ChatMessage createdGe :=
  ⟨fun _ _ _ h1 h2 => Nat.le_trans h2 h1⟩

instance : IsTotal Chat updatedGe :=
  ⟨fun a b => (Nat.le_total a.updated_at b.updated_at).symm⟩

instance : IsTrans Chat updatedGe :=
  ⟨fun _ _ _ h1 h2 => Nat.le_trans h2 h1⟩

/-- The ownership query of `send_message` and `end_chat`:
`SELECT * FROM chats WHERE chat_id = %s AND user_id = %s AND is_active = 1`,
with `fetchone` returning the first matching row. -/
def activeOwnedChat (db : DB) (chat_id : Nat) (uid : Option Nat) : Option Chat :=
  db.chats.find? fun c => c.chat_id == chat_id && uidMatches uid c && c.is_active

/-- The ownership query of `get_chat_messages`:
`SELECT * FROM chats WHERE chat_id = %s AND user_id = %s` (no activity check). -/
def ownedChat (db : DB) (chat_id : Nat) (uid : Option Nat) : Option Chat :=
  db.chats.find? fun c => c.chat_id == chat_id && uidMatches uid c

/-- The correlated subquery of `get_user_chats`:
`SELECT content FROM chat_messages WHERE chat_id = ... ORDER BY created_at DESC LIMIT 1`. -/
def lastMessage (msgs : List ChatMessage) (chat_id : Nat) : Option String :=
  (((msgs.filter fun m => m.chat_id == chat_id).insertionSort createdGe).head?).map
    ChatMessage.content

/-- One output row of the `get_user_chats` SELECT for chat `c`. -/
def summarize (msgs : List ChatMessage) (c : Chat) : ChatSummary :=
  ⟨c.chat_id, c.title, c.created_at, c.updated_at, c.is_active,
    lastMessage msgs c.chat_id⟩

/-- Handler `POST /api/chats/start`. -/
def start_chat (db : DB) (uid : Option Nat) (chat_id message_id now : Nat) :
    ApiResult × DB :=
  match uid with
  | none => (.badRequest "User ID is required", db)
  | some u =>
    if u == 0 then (.badRequest "User ID is required", db)
    else if ! db.users.contains u then (.notFound "User not found", db)
    else
      let chatRow : Chat := ⟨chat_id, u, "New Financial Chat", now, now, true⟩
      let messageRow : ChatMessage := ⟨message_id, chat_id, systemMessage, false, now⟩
      (.startOk chat_id systemMessage,
        { db with
          chats := db.chats ++ [chatRow],
          chat_messages := db.chat_messages ++ [messageRow] })

/-- Handler `POST /api/chats/chat_id/message`.  The single `now` computed at
the top of the handler stamps the user row, the assistant row and the chat
update alike; `groq` is the outcome of the external completion call. -/
def send_message (db : DB) (chat_id : Nat) (uid : Option Nat)
    (message : Option String) (user_message_id assistant_message_id now : Nat)
    (groq : Option String) : ApiResult × DB :=
  if ! truthyMsg message then (.badRequest "Message is required", db)
  else
    match activeOwnedChat db chat_id uid with
    | none => (.notFound "Chat not found or inactive", db)
    | some _ =>
      let userRow : ChatMessage :=
        ⟨user_message_id, chat_id, message.getD "", true, now⟩
      let db1 : DB := { db with chat_messages := db.chat_messages ++ [userRow] }
      let assistantRow : ChatMessage :=
        ⟨assistant_message_id, chat_id, groqReply groq, false, now⟩
      let db2 : DB := { db1 with chat_messages := db1.chat_messages ++ [assistantRow] }
      let db3 : DB :=
        { db2 with
          chats := db2.chats.map fun c =>
            if c.chat_id == chat_id then { c with updated_at := now } else c }
      (.sendOk assistant_message_id (groqReply groq), db3)

/-- Handler `POST /api/chats/chat_id/end`. -/
def end_chat (db : DB) (chat_id : Nat) (uid : Option Nat) (now : Nat) :
    ApiResult × DB :=
  match activeOwnedChat db chat_id uid with
  | none => (.notFound "Chat not found or already inactive", db)
  | some _ =>
    (.endOk "Chat ended successfully",
      { db with
        chats := db.chats.map fun c =>
          if c.chat_id == chat_id then { c with is_active := false, updated_at := now }
          else c })

/-- Handler `GET /api/chats?user_id=...` (query parameter, so the value `0`
arrives as the truthy string "0" and is not rejected). -/
def get_user_chats (db : DB) (uid : Option Nat) : ApiResult :=
  match uid with
  | none => .badRequest "User ID is required"
  | some u =>
    .listOk (((db.chats.filter fun c => c.user_id == u).insertionSort updatedGe).map
      (summarize db.chat_messages))

/-- Handler `GET /api/chats/chat_id?user_id=...`. -/
def get_chat_messages (db : DB) (chat_id : Nat) (uid : Option Nat) : ApiResult :=
  match uid with
  | none => .badRequest "User ID is required"
  | some u =>
    match ownedChat db chat_id (some u) with
    | none => .notFound "Chat not found"
    | some chat =>
      .historyOk chat_id chat.title chat.is_active
        ((db.chat_messages.filter fun m => m.chat_id == chat_id).insertionSort createdLe)

/-- Strict ascent of a list of timestamps, as a computable check. -/
def strictAsc : List Nat → Bool
  | [] => true
  | [_] => true
  | a :: b :: t => decide (a < b) && strictAsc (b :: t)

/-- The `created_at` column of a history response, in returned order. -/
def historyCreatedAts : ApiResult → List Nat
  | .historyOk _ _ _ ms => ms.map ChatMessage.created_at
  | _ => []

/-- A concrete initial state: one external user with id 7, no chats yet. -/
def exDB0 : DB := ⟨[7], [], []⟩

/-- State after `start_chat` for user 7 at time 1 (chat id 1, greeting id 10). -/
def exDB1 : DB := (start_chat exDB0 (some 7) 1 10 1).2

/-- State after a successful `send_message` ("hello", reply "hi") at time 2,
with fresh message ids 11 and 12. -/
def exDB2 : DB := (send_message exDB1 1 (some 7) (some "hello") 11 12 2 (some "hi")).2

/-- State after ending chat 1 at time 3: the chat row is inactive. -/
def exDB3 : DB := (end_chat exDB2 1 (some 7) 3).2

/-- The rows of a list response (empty for every other response shape). -/
def listRows : ApiResult → List ChatSummary
  | .listOk rows => rows
  | _ => []

/-- The message list of a history response (empty for every other shape). -/
def historyMessages : ApiResult → List ChatMessage
  | .historyOk _ _ _ ms => ms
  | _ => []

/-- The ownership query of the write handlers returns no row exactly when no
chat row has the requested id, owner and active flag together. -/
theorem activeOwnedChat_eq_none (db : DB) (chat_id : Nat) (uid : Option Nat)
    (h : ∀ c ∈ db.chats,
      ¬(c.chat_id = chat_id ∧ uidMatches uid c = true ∧ c.is_active = true)) :
    activeOwnedChat db chat_id uid = none := by
  rw [activeOwnedChat, List.find?_eq_none]
  intro c hc hp
  simp only [Bool.and_eq_true, beq_iff_eq] at hp
  exact h c hc ⟨hp.1.1, hp.1.2, hp.2⟩

/-- A row returned by the ownership query belongs to the table and satisfies
the three conditions of the WHERE clause. -/
theorem activeOwnedChat_some (db : DB) (chat_id : Nat) (uid : Option Nat) (c : Chat)
    (hc : activeOwnedChat db chat_id uid = some c) :
    c ∈ db.chats ∧ c.chat_id = chat_id ∧ uidMatches uid c = true ∧
      c.is_active = true := by
  have hm := List.mem_of_find?_eq_some hc
  have hp := List.find?_some hc
  simp only [Bool.and_eq_true, beq_iff_eq] at hp
  exact ⟨hm, hp.1.1, hp.1.2, hp.2⟩

/-- Computation of `send_message` when the ownership query is empty. -/
theorem send_message_not_found (db : DB) (chat_id : Nat) (uid : Option Nat)
    (message : Option String) (umid amid now : Nat) (groq : Option String)
    (hmsg : truthyMsg message = true)
    (hnone : activeOwnedChat db chat_id uid = none) :
    send_message db chat_id uid message umid amid now groq =
      (.notFound "Chat not found or inactive", db) := by
  simp [send_message, hmsg, hnone]

/-- Computation of `send_message` when the body has no truthy message. -/
theorem send_message_bad_request (db : DB) (chat_id : Nat) (uid : Option Nat)
    (message : Option String) (umid amid now : Nat) (groq : Option String)
    (hmsg : truthyMsg message = false) :
    send_message db chat_id uid message umid amid now groq =
      (.badRequest "Message is required", db) := by
  simp [send_message, hmsg]

/-- Computation of `send_message` on the success path. -/
theorem send_message_found (db : DB) (chat_id : Nat) (uid : Option Nat)
    (m : String) (umid amid now : Nat) (groq : Option String) (c : Chat)
    (hm : m ≠ "") (hc : activeOwnedChat db chat_id uid = some c) :
    send_message db chat_id uid (some m) umid amid now groq =
      (.sendOk amid (groqReply groq),
       { db with
         chat_messages := db.chat_messages ++
           [⟨umid, chat_id, m, true, now⟩,
            ⟨amid, chat_id, groqReply groq, false, now⟩],
         chats := db.chats.map fun ch =>
           if ch.chat_id == chat_id then { ch with updated_at := now } else ch }) := by
  have hmsg : truthyMsg (some m) = true := by simp [truthyMsg, hm]
  simp [send_message, hmsg, hc]

/-- Computation of `end_chat` when the ownership query is empty. -/
theorem end_chat_not_found (db : DB) (chat_id : Nat) (uid : Option Nat) (now : Nat)
    (hnone : activeOwnedChat db chat_id uid = none) :
    end_chat db chat_id uid now =
      (.notFound "Chat not found or already inactive", db) := by
  simp [end_chat, hnone]

/-- Computation of `end_chat` on the success path. -/
theorem end_chat_found (db : DB) (chat_id : Nat) (uid : Option Nat) (now : Nat)
    (c : Chat) (hc : activeOwnedChat db chat_id uid = some c) :
    end_chat db chat_id uid now =
      (.endOk "Chat ended successfully",
       { db with
         chats := db.chats.map fun ch =>
           if ch.chat_id == chat_id then { ch with is_active := false, updated_at := now }
           else ch }) := by
  simp [end_chat, hc]

/-- Computation of `start_chat` for a truthy, existing user id. -/
theorem start_chat_ok (db : DB) (u chat_id message_id now : Nat)
    (hu0 : u ≠ 0) (hu : db.users.contains u = true) :
    start_chat db (some u) chat_id message_id now =
      (.startOk chat_id systemMessage,
       { db with
         chats := db.chats ++ [⟨chat_id, u, "New Financial Chat", now, now, true⟩],
         chat_messages := db.chat_messages ++
           [⟨message_id, chat_id, systemMessage, false, now⟩] }) := by
  have hm : u ∈ db.users := by simpa using hu
  simp [start_chat, hu0, hm]

/-- Computation of `start_chat` for a truthy user id absent from `users`. -/
theorem start_chat_no_user (db : DB) (u chat_id message_id now : Nat)
    (hu0 : u ≠ 0) (hu : db.users.contains u = false) :
    start_chat db (some u) chat_id message_id now = (.notFound "User not found", db) := by
  have hm : u ∉ db.users := by simpa using hu
  simp [start_chat, hu0, hm]

/-- Every chat row of the old state survives `start_chat` unchanged. -/
theorem start_chat_chats_mono (db : DB) (uid : Option Nat) (chat_id message_id now : Nat) :
    ∀ c ∈ db.chats, c ∈ (start_chat db uid chat_id message_id now).2.chats := by
  intro c hc
  cases uid with
  | none => simpa [start_chat] using hc
  | some u =>
    simp only [start_chat]
    split_ifs with h1 h2
    · exact hc
    · exact hc
    · exact List.mem_append_left _ hc

/-- C1: posting a nonempty message to an existing, owned, active chat
inserts exactly two new rows into chat_messages - first the user row
(is_user_message true), then the assistant row (is_user_message false) -
rewrites the chats table so that only rows of the target chat id change,
setting their updated_at to the fresh now, which is strictly later than the
previous updated_at of the chat; no other row of either table is inserted
or modified, and the handler answers 200. -/
theorem send_message_success_two_rows (db : DB) (chat_id u : Nat) (m : String)
    (umid amid now : Nat) (groq : Option String) (c : Chat)
    (hm : m ≠ "")
    (hc : activeOwnedChat db chat_id (some u) = some c)
    (hlt : c.updated_at < now) :
    (send_message db chat_id (some u) (some m) umid amid now groq).2.chat_messages =
        db.chat_messages ++
          [⟨umid, chat_id, m, true, now⟩,
           ⟨amid, chat_id, groqReply groq, false, now⟩] ∧
    (send_message db chat_id (some u) (some m) umid amid now groq).2.chats =
        db.chats.map (fun ch =>
          if ch.chat_id == chat_id then { ch with updated_at := now } else ch) ∧
    ({ c with updated_at := now } : Chat) ∈
        (send_message db chat_id (some u) (some m) umid amid now groq).2.chats ∧
    c.updated_at < ({ c with updated_at := now } : Chat).updated_at ∧
    (send_message db chat_id (some u) (some m) umid amid now groq).1.status = 200 := by
  have heq := send_message_found db chat_id (some u) m umid amid now groq c hm hc
  obtain ⟨hmem, hcid, -, -⟩ := activeOwnedChat_some db chat_id (some u) c hc
  rw [heq]
  refine ⟨rfl, rfl, ?_, hlt, rfl⟩
  have himg : ({ c with updated_at := now } : Chat) =
      (fun ch => if ch.chat_id == chat_id then { ch with updated_at := now } else ch) c := by
    simp [hcid]
  rw [himg]
  exact List.mem_map_of_mem _ hmem

/-- C1 witness: the concrete send on exDB1 (user 7, chat 1, time 2). -/
theorem send_message_success_two_rows_witness :
    (send_message exDB1 1 (some 7) (some "hello") 11 12 2 (some "hi")).2.chat_messages =
        exDB1.chat_messages ++
          [⟨11, 1, "hello", true, 2⟩, ⟨12, 1, groqReply (some "hi"), false, 2⟩] ∧
    (send_message exDB1 1 (some 7) (some "hello") 11 12 2 (some "hi")).2.chats =
        exDB1.chats.map (fun ch =>
          if ch.chat_id == 1 then { ch with updated_at := 2 } else ch) ∧
    ({ (⟨1, 7, "New Financial Chat", 1, 1, true⟩ : Chat) with updated_at := 2 } : Chat) ∈
        (send_message exDB1 1 (some 7) (some "hello") 11 12 2 (some "hi")).2.chats ∧
    (⟨1, 7, "New Financial Chat", 1, 1, true⟩ : Chat).updated_at <
        ({ (⟨1, 7, "New Financial Chat", 1, 1, true⟩ : Chat) with updated_at := 2 } : Chat).updated_at ∧
    (send_message exDB1 1 (some 7) (some "hello") 11 12 2 (some "hi")).1.status = 200 :=
  send_message_success_two_rows exDB1 1 7 "hello" 11 12 2 (some "hi")
    ⟨1, 7, "New Financial Chat", 1, 1, true⟩ (by decide) (by decide) (by decide)

/-- C2: when the external completion call raises (modelled by groq = none)
on a send to an active owned chat, the handler still answers HTTP 200, the
response body carries exactly the fixed fallback string, and the persisted
assistant row carries exactly that fallback string; no error status is
returned. -/
theorem send_message_groq_failure_fallback (db : DB) (chat_id u : Nat) (m : String)
    (umid amid now : Nat) (c : Chat)
    (hm : m ≠ "")
    (hc : activeOwnedChat db chat_id (some u) = some c) :
    (send_message db chat_id (some u) (some m) umid amid now none).1.status = 200 ∧
    (send_message db chat_id (some u) (some m) umid amid now none).1 =
        .sendOk amid fallbackMessage ∧
    (send_message db chat_id (some u) (some m) umid amid now none).2.chat_messages =
        db.chat_messages ++
          [⟨umid, chat_id, m, true, now⟩,
           ⟨amid, chat_id, fallbackMessage, false, now⟩] := by
  have heq := send_message_found db chat_id (some u) m umid amid now none c hm hc
  rw [heq]
  exact ⟨rfl, rfl, rfl⟩

/-- C2 witness: the concrete failing send on exDB1. -/
theorem send_message_groq_failure_fallback_witness :
    (send_message exDB1 1 (some 7) (some "hello") 11 12 2 none).1.status = 200 ∧
    (send_message exDB1 1 (some 7) (some "hello") 11 12 2 none).1 =
        .sendOk 12 fallbackMessage ∧
    (send_message exDB1 1 (some 7) (some "hello") 11 12 2 none).2.chat_messages =
        exDB1.chat_messages ++
          [⟨11, 1, "hello", true, 2⟩, ⟨12, 1, fallbackMessage, false, 2⟩] :=
  send_message_groq_failure_fallback exDB1 1 7 "hello" 11 12 2
    ⟨1, 7, "New Financial Chat", 1, 1, true⟩ (by decide) (by decide)

/-- C7: a message send whose target chat is missing, owned by another user,
or inactive answers 404 and leaves both tables untouched. -/
theorem send_message_reject_404 (db : DB) (chat_id : Nat) (uid : Option Nat)
    (message : Option String) (umid amid now : Nat) (groq : Option String)
    (hmsg : truthyMsg message = true)
    (h : ∀ c ∈ db.chats,
      ¬(c.chat_id = chat_id ∧ uidMatches uid c = true ∧ c.is_active = true)) :
    send_message db chat_id uid message umid amid now groq =
      (.notFound "Chat not found or inactive", db) ∧
    (send_message db chat_id uid message umid amid now groq).1.status = 404 := by
  have hn := activeOwnedChat_eq_none db chat_id uid h
  have he := send_message_not_found db chat_id uid message umid amid now groq hmsg hn
  exact ⟨he, by rw [he]; rfl⟩

/-- C7 witness: sending to the ended chat of exDB3 (inactive chat 1,
correct owner 7) is rejected without a state change. -/
theorem send_message_reject_404_witness :
    send_message exDB3 1 (some 7) (some "again") 13 14 4 (some "x") =
      (.notFound "Chat not found or inactive", exDB3) ∧
    (send_message exDB3 1 (some 7) (some "again") 13 14 4 (some "x")).1.status = 404 :=
  send_message_reject_404 exDB3 1 (some 7) (some "again") 13 14 4 (some "x")
    (by decide) (by decide)

/-- C10: a send or end request whose JSON body has no user_id is not met by
a 400 validation error: the NULL parameter matches no chat row in the
ownership query, so both handlers answer 404 with the state unchanged;
presence of user_id is validated (400) only by start_chat and the two GET
handlers. -/
theorem missing_user_id_no_validation (db : DB) (chat_id : Nat)
    (message : Option String) (umid amid now cid2 mid2 : Nat) (groq : Option String)
    (hmsg : truthyMsg message = true) :
    send_message db chat_id none message umid amid now groq =
      (.notFound "Chat not found or inactive", db) ∧
    end_chat db chat_id none now =
      (.notFound "Chat not found or already inactive", db) ∧
    (start_chat db none cid2 mid2 now).1 = .badRequest "User ID is required" ∧
    (start_chat db none cid2 mid2 now).2 = db ∧
    (get_user_chats db none).status = 400 ∧
    (get_chat_messages db chat_id none).status = 400 := by
  have hn : activeOwnedChat db chat_id none = none := by
    apply activeOwnedChat_eq_none
    intro c _ h
    simp [uidMatches] at h
  exact ⟨send_message_not_found db chat_id none message umid amid now groq hmsg hn,
    end_chat_not_found db chat_id none now hn, rfl, rfl, rfl, rfl⟩

/-- C10 witness: concrete requests on exDB2 with no user_id. -/
theorem missing_user_id_no_validation_witness :
    send_message exDB2 1 none (some "hey") 21 22 9 (some "y") =
      (.notFound "Chat not found or inactive", exDB2) ∧
    end_chat exDB2 1 none 9 =
      (.notFound "Chat not found or already inactive", exDB2) ∧
    (start_chat exDB2 none 5 50 9).1 = .badRequest "User ID is required" ∧
    (start_chat exDB2 none 5 50 9).2 = exDB2 ∧
    (get_user_chats exDB2 none).status = 400 ∧
    (get_chat_messages exDB2 1 none).status = 400 :=
  missing_user_id_no_validation exDB2 1 (some "hey") 21 22 9 5 50 (some "y") (by decide)

/-- C3 counterexample: in the reachable state exDB2 (a start_chat for user 7
followed by one successful send), the user row and the assistant row written
by that single send are two distinct messages of the same chat carrying the
same created_at, because the handler stamps both inserts with the one `now`
read at its top. -/
theorem send_message_equal_created_at_cex :
    (⟨11, 1, "hello", true, 2⟩ : ChatMessage) ∈ exDB2.chat_messages ∧
    (⟨12, 1, "hi", false, 2⟩ : ChatMessage) ∈ exDB2.chat_messages ∧
    (⟨11, 1, "hello", true, 2⟩ : ChatMessage) ≠ (⟨12, 1, "hi", false, 2⟩ : ChatMessage) ∧
    (⟨11, 1, "hello", true, 2⟩ : ChatMessage).chat_id =
      (⟨12, 1, "hi", false, 2⟩ : ChatMessage).chat_id ∧
    (⟨11, 1, "hello", true, 2⟩ : ChatMessage).created_at =
      (⟨12, 1, "hi", false, 2⟩ : ChatMessage).created_at := by
  decide

/-- C3 amended: messages written by operations invoked at strictly later
times carry strictly larger created_at values, but the user and assistant
rows of one send share an identical created_at, so ordering within a chat is
determined by created_at only up to that tie: a successful send appends, to
a state whose messages all predate the fresh now, two distinct rows whose
created_at are equal while every older message is strictly earlier. -/
theorem send_message_timestamp_tie (db : DB) (chat_id u : Nat) (m : String)
    (umid amid now : Nat) (groq : Option String) (c : Chat)
    (hm : m ≠ "")
    (hc : activeOwnedChat db chat_id (some u) = some c)
    (hids : umid ≠ amid)
    (hclock : ∀ msg ∈ db.chat_messages, msg.created_at < now) :
    (send_message db chat_id (some u) (some m) umid amid now groq).2.chat_messages =
        db.chat_messages ++
          [⟨umid, chat_id, m, true, now⟩,
           ⟨amid, chat_id, groqReply groq, false, now⟩] ∧
    (⟨umid, chat_id, m, true, now⟩ : ChatMessage) ≠
        (⟨amid, chat_id, groqReply groq, false, now⟩ : ChatMessage) ∧
    (⟨umid, chat_id, m, true, now⟩ : ChatMessage).created_at =
        (⟨amid, chat_id, groqReply groq, false, now⟩ : ChatMessage).created_at ∧
    (∀ msg ∈ db.chat_messages,
      msg.created_at < (⟨umid, chat_id, m, true, now⟩ : ChatMessage).created_at) := by
  have heq := send_message_found db chat_id (some u) m umid amid now groq c hm hc
  refine ⟨by rw [heq], ?_, rfl, hclock⟩
  intro hcon
  exact hids (congrArg ChatMessage.message_id hcon)

/-- C3 amended witness: the concrete send on exDB1. -/
theorem send_message_timestamp_tie_witness :
    (send_message exDB1 1 (some 7) (some "hello") 11 12 2 (some "hi")).2.chat_messages =
        exDB1.chat_messages ++
          [⟨11, 1, "hello", true, 2⟩, ⟨12, 1, groqReply (some "hi"), false, 2⟩] ∧
    (⟨11, 1, "hello", true, 2⟩ : ChatMessage) ≠
        (⟨12, 1, groqReply (some "hi"), false, 2⟩ : ChatMessage) ∧
    (⟨11, 1, "hello", true, 2⟩ : ChatMessage).created_at =
        (⟨12, 1, groqReply (some "hi"), false, 2⟩ : ChatMessage).created_at ∧
    (∀ msg ∈ exDB1.chat_messages,
      msg.created_at < (⟨11, 1, "hello", true, 2⟩ : ChatMessage).created_at) :=
  send_message_timestamp_tie exDB1 1 7 "hello" 11 12 2 (some "hi")
    ⟨1, 7, "New Financial Chat", 1, 1, true⟩ (by decide) (by decide) (by decide) (by decide)

/-- C4 counterexample: on the reachable state exDB2 the history fetch for
chat 1 by its owner succeeds (200) but the returned created_at column is
[1, 2, 2] - the user and assistant rows of the one send tie - so the order
is not strictly ascending. -/
theorem get_chat_messages_not_strict_cex :
    (get_chat_messages exDB2 1 (some 7)).status = 200 ∧
    historyCreatedAts (get_chat_messages exDB2 1 (some 7)) = [1, 2, 2] ∧
    strictAsc (historyCreatedAts (get_chat_messages exDB2 1 (some 7))) = false := by
  decide

/-- C4 amended: the history fetch answers 404 whenever no chat row carries
the requested id and owner, with no reference to is_active; when such a row
exists the fetch succeeds even on an inactive chat and returns exactly the
messages of that chat ordered by created_at ascending - non-decreasing,
ties being possible between the two rows of one send. -/
theorem get_chat_messages_spec (db : DB) (chat_id u : Nat) :
    ((∀ c ∈ db.chats, ¬(c.chat_id = chat_id ∧ c.user_id = u)) →
      get_chat_messages db chat_id (some u) = .notFound "Chat not found") ∧
    (∀ c ∈ db.chats, c.chat_id = chat_id → c.user_id = u →
      (get_chat_messages db chat_id (some u)).status = 200 ∧
      (historyMessages (get_chat_messages db chat_id (some u))).Sorted createdLe ∧
      (historyMessages (get_chat_messages db chat_id (some u))).Perm
        (db.chat_messages.filter fun msg => msg.chat_id == chat_id)) := by
  constructor
  · intro h
    have hn : ownedChat db chat_id (some u) = none := by
      rw [ownedChat, List.find?_eq_none]
      intro c hc hp
      simp only [uidMatches, Bool.and_eq_true, beq_iff_eq] at hp
      exact h c hc ⟨hp.1, hp.2⟩
    simp [get_chat_messages, hn]
  · intro c hcmem hcid huid
    have hsome : (ownedChat db chat_id (some u)).isSome = true := by
      rw [ownedChat, List.find?_isSome]
      refine ⟨c, hcmem, ?_⟩
      simp [uidMatches, hcid, huid]
    obtain ⟨chat, hchat⟩ := Option.isSome_iff_exists.mp hsome
    have heq : get_chat_messages db chat_id (some u) =
        .historyOk chat_id chat.title chat.is_active
          ((db.chat_messages.filter fun msg => msg.chat_id == chat_id).insertionSort
            createdLe) := by
      simp [get_chat_messages, hchat]
    rw [heq]
    exact ⟨rfl, List.sorted_insertionSort createdLe _,
      List.perm_insertionSort createdLe _⟩

/-- C4 amended witness: chat 99 does not exist in exDB3, so its fetch is
404; the fetch of the ended (inactive) chat 1 of exDB3 still succeeds. -/
theorem get_chat_messages_spec_witness :
    get_chat_messages exDB3 99 (some 7) = .notFound "Chat not found" ∧
    (get_chat_messages exDB3 1 (some 7)).status = 200 :=
  ⟨(get_chat_messages_spec exDB3 99 7).1 (by decide),
   ((get_chat_messages_spec exDB3 1 7).2 ⟨1, 7, "New Financial Chat", 1, 3, false⟩
     (by decide) (by decide) (by decide)).1⟩

/-- C5 counterexample: for a users table containing the id 0, a start-chat
request with user_id 0 - an id that does exist in the table - is rejected by
the Python truthiness check (`if not user_id`) with 400, and no chat row and
no message row is created. -/
theorem start_chat_zero_user_cex :
    ((⟨[0], [], []⟩ : DB).users.contains 0 = true) ∧
    start_chat ⟨[0], [], []⟩ (some 0) 1 10 5 =
      (.badRequest "User ID is required", ⟨[0], [], []⟩) ∧
    (start_chat ⟨[0], [], []⟩ (some 0) 1 10 5).2.chats = [] ∧
    (start_chat ⟨[0], [], []⟩ (some 0) 1 10 5).2.chat_messages = [] := by
  decide

/-- C5 amended: for every start-chat request whose user_id is truthy
(non-null and non-zero) and exists in the users table, exactly one chat row
(title "New Financial Chat", is_active true) and exactly one assistant
message row (the greeting, is_user_message false) are appended, and the
created_at and updated_at of the chat and the created_at of the greeting all
equal the one fresh now; a user_id of 0 is instead rejected with 400 by the
truthiness check even when present in the users table. -/
theorem start_chat_valid_user_spec (db : DB) (u chat_id message_id now : Nat)
    (hu0 : u ≠ 0) (hu : db.users.contains u = true) :
    start_chat db (some u) chat_id message_id now =
      (.startOk chat_id systemMessage,
       { db with
         chats := db.chats ++ [⟨chat_id, u, "New Financial Chat", now, now, true⟩],
         chat_messages := db.chat_messages ++
           [⟨message_id, chat_id, systemMessage, false, now⟩] }) ∧
    (⟨chat_id, u, "New Financial Chat", now, now, true⟩ : Chat).is_active = true ∧
    (⟨chat_id, u, "New Financial Chat", now, now, true⟩ : Chat).created_at =
      (⟨chat_id, u, "New Financial Chat", now, now, true⟩ : Chat).updated_at ∧
    (⟨chat_id, u, "New Financial Chat", now, now, true⟩ : Chat).created_at =
      (⟨message_id, chat_id, systemMessage, false, now⟩ : ChatMessage).created_at ∧
    (⟨message_id, chat_id, systemMessage, false, now⟩ : ChatMessage).is_user_message =
      false :=
  ⟨start_chat_ok db u chat_id message_id now hu0 hu, rfl, rfl, rfl, rfl⟩

/-- C5 amended witness: starting a chat for the existing user 7 of exDB0. -/
theorem start_chat_valid_user_spec_witness :
    start_chat exDB0 (some 7) 1 10 1 =
      (.startOk 1 systemMessage,
       { exDB0 with
         chats := exDB0.chats ++ [⟨1, 7, "New Financial Chat", 1, 1, true⟩],
         chat_messages := exDB0.chat_messages ++
           [⟨10, 1, systemMessage, false, 1⟩] }) ∧
    (⟨1, 7, "New Financial Chat", 1, 1, true⟩ : Chat).is_active = true ∧
    (⟨1, 7, "New Financial Chat", 1, 1, true⟩ : Chat).created_at =
      (⟨1, 7, "New Financial Chat", 1, 1, true⟩ : Chat).updated_at ∧
    (⟨1, 7, "New Financial Chat", 1, 1, true⟩ : Chat).created_at =
      (⟨10, 1, systemMessage, false, 1⟩ : ChatMessage).created_at ∧
    (⟨10, 1, systemMessage, false, 1⟩ : ChatMessage).is_user_message = false :=
  start_chat_valid_user_spec exDB0 7 1 10 1 (by decide) (by decide)

/-- C6 counterexample: the user id 0 is absent from the users table of exDB0
(whose only user is 7), yet a start-chat request with user_id 0 answers 400,
not the 404 the claim requires, because Python truthiness rejects 0 before
the existence query runs. -/
theorem start_chat_unknown_zero_cex :
    ((⟨[7], [], []⟩ : DB).users.contains 0 = false) ∧
    (start_chat ⟨[7], [], []⟩ (some 0) 1 10 5).1.status = 400 ∧
    ¬((start_chat ⟨[7], [], []⟩ (some 0) 1 10 5).1.status = 404) := by
  decide

/-- C6 amended: a start-chat request with a truthy (non-null, non-zero)
user_id absent from the users table answers 404 with both tables unchanged;
a missing or zero user_id instead answers 400, also with no state change. -/
theorem start_chat_unknown_user_spec (db : DB) (u chat_id message_id now : Nat)
    (hu0 : u ≠ 0) (hu : db.users.contains u = false) :
    start_chat db (some u) chat_id message_id now = (.notFound "User not found", db) ∧
    start_chat db none chat_id message_id now =
      (.badRequest "User ID is required", db) ∧
    start_chat db (some 0) chat_id message_id now =
      (.badRequest "User ID is required", db) :=
  ⟨start_chat_no_user db u chat_id message_id now hu0 hu, rfl, by simp [start_chat]⟩

/-- C6 amended witness: user 9 does not exist in exDB0. -/
theorem start_chat_unknown_user_spec_witness :
    start_chat exDB0 (some 9) 1 10 5 = (.notFound "User not found", exDB0) ∧
    start_chat exDB0 none 1 10 5 = (.badRequest "User ID is required", exDB0) ∧
    start_chat exDB0 (some 0) 1 10 5 = (.badRequest "User ID is required", exDB0) :=
  start_chat_unknown_user_spec exDB0 9 1 10 5 (by decide) (by decide)

/-- C8: ending a chat that is missing, not owned by the caller, or already
inactive answers 404 with no state change; ending an active owned chat
answers 200 and leaves every row of that chat id inactive, and a second end
call on the resulting state answers 404 and changes nothing further; and no
handler ever turns an inactive chat row active again - it survives end_chat
and send_message (possibly with a refreshed updated_at) still inactive, and
start_chat keeps it untouched. -/
theorem end_chat_lifecycle (db : DB) (chat_id : Nat) (uid : Option Nat) (now : Nat) :
    ((∀ c ∈ db.chats,
        ¬(c.chat_id = chat_id ∧ uidMatches uid c = true ∧ c.is_active = true)) →
      end_chat db chat_id uid now =
        (.notFound "Chat not found or already inactive", db)) ∧
    (∀ c, activeOwnedChat db chat_id uid = some c →
      (end_chat db chat_id uid now).1 = .endOk "Chat ended successfully" ∧
      (∀ c2 ∈ (end_chat db chat_id uid now).2.chats,
        c2.chat_id = chat_id → c2.is_active = false) ∧
      (∀ now2, end_chat (end_chat db chat_id uid now).2 chat_id uid now2 =
        (.notFound "Chat not found or already inactive",
         (end_chat db chat_id uid now).2))) ∧
    (∀ c ∈ db.chats, c.is_active = false →
      ((∀ cid2 uid2 now2, ∃ c2 ∈ (end_chat db cid2 uid2 now2).2.chats,
          c2.chat_id = c.chat_id ∧ c2.is_active = false) ∧
       (∀ cid2 uid2 msg2 umid amid now2 groq,
          ∃ c2 ∈ (send_message db cid2 uid2 msg2 umid amid now2 groq).2.chats,
            c2.chat_id = c.chat_id ∧ c2.is_active = false) ∧
       (∀ uid2 cid2 mid2 now2,
          c ∈ (start_chat db uid2 cid2 mid2 now2).2.chats))) := by
  refine ⟨?_, ?_, ?_⟩
  · intro h
    exact end_chat_not_found db chat_id uid now (activeOwnedChat_eq_none db chat_id uid h)
  · intro c hc
    have heq := end_chat_found db chat_id uid now c hc
    have hkey : ∀ c2 ∈ (end_chat db chat_id uid now).2.chats,
        c2.chat_id = chat_id → c2.is_active = false := by
      intro c2 hc2 hcid
      rw [heq] at hc2
      obtain ⟨y, hy, hfy⟩ := List.mem_map.mp hc2
      by_cases hb : y.chat_id = chat_id
      · rw [← hfy]
        simp [hb]
      · exfalso
        apply hb
        rw [← hfy] at hcid
        simp [hb] at hcid
    refine ⟨by rw [heq], hkey, ?_⟩
    intro now2
    apply end_chat_not_found
    apply activeOwnedChat_eq_none
    intro c2 hc2 hcon
    have hinact := hkey c2 hc2 hcon.1
    rw [hcon.2.2] at hinact
    simp at hinact
  · intro c hcmem hcinact
    refine ⟨?_, ?_, ?_⟩
    · intro cid2 uid2 now2
      cases hcase : activeOwnedChat db cid2 uid2 with
      | none =>
        rw [end_chat_not_found db cid2 uid2 now2 hcase]
        exact ⟨c, hcmem, rfl, hcinact⟩
      | some cFound =>
        rw [end_chat_found db cid2 uid2 now2 cFound hcase]
        refine ⟨(fun ch => if ch.chat_id == cid2
            then { ch with is_active := false, updated_at := now2 } else ch) c,
          List.mem_map_of_mem _ hcmem, ?_, ?_⟩
        · by_cases hb : c.chat_id = cid2 <;> simp [hb]
        · by_cases hb : c.chat_id = cid2 <;> simp [hb, hcinact]
    · intro cid2 uid2 msg2 umid amid now2 groq
      cases htm : truthyMsg msg2 with
      | false =>
        rw [send_message_bad_request db cid2 uid2 msg2 umid amid now2 groq htm]
        exact ⟨c, hcmem, rfl, hcinact⟩
      | true =>
        cases hcase : activeOwnedChat db cid2 uid2 with
        | none =>
          rw [send_message_not_found db cid2 uid2 msg2 umid amid now2 groq htm hcase]
          exact ⟨c, hcmem, rfl, hcinact⟩
        | some cFound =>
          cases msg2 with
          | none => simp [truthyMsg] at htm
          | some m =>
            have hm : m ≠ "" := by simpa [truthyMsg] using htm
            rw [send_message_found db cid2 uid2 m umid amid now2 groq cFound hm hcase]
            refine ⟨(fun ch => if ch.chat_id == cid2
                then { ch with updated_at := now2 } else ch) c,
              List.mem_map_of_mem _ hcmem, ?_, ?_⟩
            · by_cases hb : c.chat_id = cid2 <;> simp [hb]
            · by_cases hb : c.chat_id = cid2 <;> simp [hb, hcinact]
    · intro uid2 cid2 mid2 now2
      exact start_chat_chats_mono db uid2 cid2 mid2 now2 c hcmem

/-- C8 witness: ending the active owned chat 1 of exDB2 succeeds, and a
second end call at a later time answers 404 without changing the state. -/
theorem end_chat_lifecycle_witness :
    end_chat (end_chat exDB2 1 (some 7) 3).2 1 (some 7) 4 =
      (.notFound "Chat not found or already inactive",
       (end_chat exDB2 1 (some 7) 3).2) :=
  ((end_chat_lifecycle exDB2 1 (some 7) 3).2.1
    ⟨1, 7, "New Financial Chat", 1, 2, true⟩ (by decide)).2.2 4

/-- C9 counterexample: in the reachable state exDB2 the messages of chat 1
are the greeting at time 1 and the user and assistant rows of one send, both
at time 2: two distinct messages with different contents share the maximal
created_at, so chat 1 has no single most recently created message; the
subquery `ORDER BY created_at DESC LIMIT 1` returns one of the tied rows
(in this embedding the user row "hello", while a database is free to return
the assistant row instead), not the content of a unique latest message. -/
theorem get_user_chats_tie_cex :
    (exDB2.chat_messages.filter fun msg => msg.chat_id == 1) =
      [⟨10, 1, systemMessage, false, 1⟩, ⟨11, 1, "hello", true, 2⟩,
       ⟨12, 1, "hi", false, 2⟩] ∧
    (⟨11, 1, "hello", true, 2⟩ : ChatMessage).created_at =
      (⟨12, 1, "hi", false, 2⟩ : ChatMessage).created_at ∧
    (⟨11, 1, "hello", true, 2⟩ : ChatMessage).content ≠
      (⟨12, 1, "hi", false, 2⟩ : ChatMessage).content ∧
    lastMessage exDB2.chat_messages 1 = some "hello" := by
  decide

/-- C9 amended: the chat listing always succeeds for a supplied user_id and returns
one summary row per chat owned by that user and no other (a permutation of
the owned rows), ordered by updated_at descending; the last_message of a
chat id is none when the chat has no messages, and otherwise the content of
a message of that chat whose created_at is maximal among them. -/
theorem get_user_chats_spec (db : DB) (u : Nat) :
    (get_user_chats db (some u)).status = 200 ∧
    (listRows (get_user_chats db (some u))).Perm
      ((db.chats.filter fun c => c.user_id == u).map (summarize db.chat_messages)) ∧
    (listRows (get_user_chats db (some u))).Sorted
      (fun a b => b.updated_at ≤ a.updated_at) ∧
    (∀ cid, (db.chat_messages.filter fun msg => msg.chat_id == cid) = [] →
      lastMessage db.chat_messages cid = none) ∧
    (∀ cid m, m ∈ (db.chat_messages.filter fun msg => msg.chat_id == cid) →
      ∃ mx ∈ (db.chat_messages.filter fun msg => msg.chat_id == cid),
        lastMessage db.chat_messages cid = some mx.content ∧
        ∀ m2 ∈ (db.chat_messages.filter fun msg => msg.chat_id == cid),
          m2.created_at ≤ mx.created_at) := by
  refine ⟨rfl, ?_, ?_, ?_, ?_⟩
  · exact (List.perm_insertionSort updatedGe _).map (summarize db.chat_messages)
  · exact List.Pairwise.map (summarize db.chat_messages) (fun _ _ h => h)
      (List.sorted_insertionSort updatedGe _)
  · intro cid h
    simp [lastMessage, h]
  · intro cid m hm
    cases hsort : (db.chat_messages.filter fun msg => msg.chat_id == cid).insertionSort
        createdGe with
    | nil =>
      have hmem := (List.mem_insertionSort createdGe).mpr hm
      rw [hsort] at hmem
      exact absurd hmem (List.not_mem_nil m)
    | cons mx tl =>
      refine ⟨mx, ?_, ?_, ?_⟩
      · have hx : mx ∈ mx :: tl := List.mem_cons_self mx tl
        rw [← hsort] at hx
        exact (List.mem_insertionSort createdGe).mp hx
      · simp [lastMessage, hsort]
      · intro m2 hm2
        have hm2s := (List.mem_insertionSort createdGe).mpr hm2
        rw [hsort] at hm2s
        have hsorted := List.sorted_insertionSort createdGe
          (db.chat_messages.filter fun msg => msg.chat_id == cid)
        rw [hsort] at hsorted
        rcases List.mem_cons.mp hm2s with h | h
        · exact h ▸ Nat.le_refl mx.created_at
        · exact List.rel_of_sorted_cons hsorted m2 h

/-- C9 witness: listing for user 7 on exDB2 succeeds, and the last_message
of chat 1 is the content of one of its maximal-timestamp messages. -/
theorem get_user_chats_spec_witness :
    (get_user_chats exDB2 (some 7)).status = 200 ∧
    (∃ mx ∈ (exDB2.chat_messages.filter fun msg => msg.chat_id == 1),
      lastMessage exDB2.chat_messages 1 = some mx.content ∧
      ∀ m2 ∈ (exDB2.chat_messages.filter fun msg => msg.chat_id == 1),
        m2.created_at ≤ mx.created_at) :=
  ⟨(get_user_chats_spec exDB2 7).1,
   (get_user_chats_spec exDB2 7).2.2.2.2 1 ⟨10, 1, systemMessage, false, 1⟩ (by decide)⟩

end FinChat
